import Mathlib

/-!
Verification of the request handlers of `app.py` (a Flask backend with the
endpoints `/narrate`, `/analyze_food` and `/get_recipe`).

Python strings are embedded as `List Char`; JSON values as the inductive
`Json`; the parsed request body (`request.json`) as `Body`, restricted to
the JSON-null and JSON-object shapes the handlers are written against.
Each handler is a pure function of the configuration, the parsed request
body, and the outcome the outside world would give to each outbound
`requests.post` call; it returns the response (or the uncaught Python
exception that escapes the handler) together with the trace of outbound
calls actually issued.  Text that flows only into an outbound request
payload (the prompt strings, the SSML document, `html.escape`) is not
reconstructed, since it is absorbed by the environment's outcome.
-/

set_option autoImplicit false
set_option maxRecDepth 100000

abbrev Str := List Char

/-- JSON values, as produced by Python's `json.loads`.  Numbers keep their
lexeme (the handlers never do arithmetic on them); objects are association
lists in source order. -/
inductive Json where
  | null
  | bool (b : Bool)
  | num (lexeme : Str)
  | str (s : Str)
  | arr (elems : List Json)
  | obj (fields : List (Str × Json))

/-- Python exceptions that can escape a handler in `app.py`.  `keyError`
also stands for the `IndexError`/`TypeError` raised by the
`['candidates'][0]['content']['parts'][0]['text']` chain on a body of the
wrong shape; all of these share the same handling (never caught by
`except requests.exceptions.RequestException`, caught by
`except Exception`). -/
inductive PyError where
  | valueError
  | keyError
  | attributeError
  deriving DecidableEq

/-- An outbound HTTP call issued by a handler. -/
inductive ApiCall where
  | vision
  | speech
  deriving DecidableEq

/-- What a handler run produces: a Flask response `resp status body`
(from `jsonify(...), status`), or an uncaught exception `exn e` that
escapes to the framework's generic error page. -/
inductive Outcome where
  | resp (status : Nat) (body : Json)
  | exn (e : PyError)

structure HandlerResult where
  outcome : Outcome
  calls : List ApiCall

/-- The environment configuration read at startup.  The empty string
stands for an unset (or empty, both falsy) variable. -/
structure Config where
  GEMINI_API_KEY : Str
  AZURE_SPEECH_KEY : Str

/-- Result of `requests.post` to the Gemini endpoint followed by
`.raise_for_status()` and `.json()`: `requestError` covers a transport
error, a non-success status (`HTTPError`) and an unparsable body
(`JSONDecodeError`, a `RequestException`); `ok body` is a success status
whose body parsed to `body`. -/
inductive VisionOutcome where
  | requestError
  | ok (body : Json)

/-- Result of `requests.post` to the Azure TTS endpoint followed by
`.raise_for_status()`: `ok content` carries the raw response bytes. -/
inductive TtsOutcome where
  | requestError
  | ok (content : List Nat)

/-- The parsed request body: `none` models `request.json` being `None`
(a JSON-null body); `some fields` a JSON object. -/
abbrev Body := Option (List (Str × Json))

/-- Index of the first occurrence of `t` in `s` (`str.find` without the
`-1` encoding). -/
def findChar : Str → Char → Option Nat
  | [], _ => none
  | c :: cs, t => if c = t then some 0 else (findChar cs t).map (· + 1)

/-- Python `str.find`: index of the first occurrence, `-1` if absent. -/
def pyFind (s : Str) (t : Char) : Int :=
  match findChar s t with
  | some i => (i : Int)
  | none => -1

/-- Python `str.rfind`: index of the last occurrence, `-1` if absent. -/
def pyRfind (s : Str) (t : Char) : Int :=
  match findChar s.reverse t with
  | some i => (s.length : Int) - 1 - i
  | none => -1

/-- Python `s.split(',', 1)` unpacked into two variables: `some` of the
two parts when a comma is present, `none` when the unpacking would raise
`ValueError` (one-element list). -/
def splitOnceComma (s : Str) : Option (Str × Str) :=
  match findChar s ',' with
  | some i => some (s.take i, s.drop (i + 1))
  | none => none

/-- Lookup in a JSON object, later duplicate keys winning, as in the
dicts `json.loads` builds. -/
def objGet (fields : List (Str × Json)) (k : Str) : Option Json :=
  match fields with
  | [] => none
  | (k2, v) :: rest =>
    match objGet rest k with
    | some w => some w
    | none => if k2 = k then some v else none

/-- Python truthiness of a JSON number: nonzero iff its mantissa (the
lexeme up to any exponent marker) has a nonzero digit. -/
def numTruthy (lexeme : Str) : Bool :=
  (lexeme.takeWhile (fun c => ¬ (c = 'e' ∨ c = 'E'))).any
    (fun c => '1' ≤ c ∧ c ≤ '9')

/-- Python truthiness of a JSON value. -/
def jsonTruthy : Json → Bool
  | .null => false
  | .bool b => b
  | .num lexeme => numTruthy lexeme
  | .str s => !s.isEmpty
  | .arr elems => !elems.isEmpty
  | .obj fields => !fields.isEmpty

/-- `not data` on the request body (`None` and `{}` are falsy). -/
def bodyFalsy : Body → Bool
  | none => true
  | some fields => fields.isEmpty

/-- `data.get(k)` / `data[k]` on the request body. -/
def bodyGet : Body → Str → Option Json
  | none, _ => none
  | some fields, k => objGet fields k

/-- `k in data` on the request body. -/
def hasKey (data : Body) (k : Str) : Bool :=
  (bodyGet data k).isSome

/-! ### A JSON parser modelling Python's `json.loads`

Fuel-based recursive descent over the standard JSON grammar.  The fuel
chosen by `jsonLoads` is large enough for any input, since each recursive
call consumes input.  Number lexemes are scanned leniently (the handlers
never inspect them); `\u` escapes of surrogate halves are out of scope. -/

def isJsonWs (c : Char) : Bool :=
  c = ' ' ∨ c = '\t' ∨ c = '\n' ∨ c = '\r'

def skipWs : Str → Str
  | [] => []
  | c :: cs => if isJsonWs c then skipWs cs else c :: cs

def hexDigitVal (c : Char) : Option Nat :=
  if '0' ≤ c ∧ c ≤ '9' then some (c.toNat - '0'.toNat)
  else if 'a' ≤ c ∧ c ≤ 'f' then some (c.toNat - 'a'.toNat + 10)
  else if 'A' ≤ c ∧ c ≤ 'F' then some (c.toNat - 'A'.toNat + 10)
  else none

/-- Parse the remainder of a string literal, after the opening quote.
Returns the decoded characters and the input after the closing quote. -/
def parseStringBody : Nat → Str → Option (Str × Str)
  | 0, _ => none
  | _, [] => none
  | fuel + 1, c :: cs =>
    if c = '\x22' then some ([], cs)
    else if c = '\\' then
      match cs with
      | [] => none
      | e :: cs2 =>
        let decoded : Option (Char × Str) :=
          if e = '\x22' then some ('\x22', cs2)
          else if e = '\\' then some ('\\', cs2)
          else if e = '/' then some ('/', cs2)
          else if e = 'b' then some ('\x08', cs2)
          else if e = 'f' then some ('\x0c', cs2)
          else if e = 'n' then some ('\n', cs2)
          else if e = 'r' then some ('\r', cs2)
          else if e = 't' then some ('\t', cs2)
          else if e = 'u' then
            match cs2 with
            | h1 :: h2 :: h3 :: h4 :: cs3 =>
              match hexDigitVal h1, hexDigitVal h2, hexDigitVal h3, hexDigitVal h4 with
              | some v1, some v2, some v3, some v4 =>
                some (Char.ofNat (v1 * 4096 + v2 * 256 + v3 * 16 + v4), cs3)
              | _, _, _, _ => none
            | _ => none
          else none
        match decoded with
        | some (ch, rest) => (parseStringBody fuel rest).map (fun p => (ch :: p.1, p.2))
        | none => none
    else (parseStringBody fuel cs).map (fun p => (c :: p.1, p.2))

def isNumChar (c : Char) : Bool :=
  c.isDigit ∨ c = '-' ∨ c = '+' ∨ c = '.' ∨ c = 'e' ∨ c = 'E'

/-- Scan a number lexeme (called only when the head is a digit or `-`). -/
def parseNumber (s : Str) : Option (Str × Str) :=
  let lexeme := s.takeWhile isNumChar
  if lexeme.isEmpty then none else some (lexeme, s.dropWhile isNumChar)

mutual

def parseValue : Nat → Str → Option (Json × Str)
  | 0, _ => none
  | fuel + 1, s =>
    match skipWs s with
    | [] => none
    | '\x22' :: cs => (parseStringBody fuel cs).map (fun p => (.str p.1, p.2))
    | '\x7b' :: cs => parseObjRest fuel cs
    | '[' :: cs => parseArrRest fuel cs
    | 't' :: 'r' :: 'u' :: 'e' :: rest => some (.bool true, rest)
    | 'f' :: 'a' :: 'l' :: 's' :: 'e' :: rest => some (.bool false, rest)
    | 'n' :: 'u' :: 'l' :: 'l' :: rest => some (.null, rest)
    | c :: cs =>
      if c = '-' ∨ c.isDigit then
        (parseNumber (c :: cs)).map (fun p => (.num p.1, p.2))
      else none

/-- Parse an object after its opening brace. -/
def parseObjRest : Nat → Str → Option (Json × Str)
  | 0, _ => none
  | fuel + 1, s =>
    match skipWs s with
    | '\x7d' :: rest => some (.obj [], rest)
    | _ => (parseMembers fuel s).map (fun p => (.obj p.1, p.2))

/-- Parse a nonempty member list up to and including the closing brace. -/
def parseMembers : Nat → Str → Option (List (Str × Json) × Str)
  | 0, _ => none
  | fuel + 1, s =>
    match skipWs s with
    | '\x22' :: cs =>
      match parseStringBody fuel cs with
      | none => none
      | some (k, r1) =>
        match skipWs r1 with
        | ':' :: r2 =>
          match parseValue fuel r2 with
          | none => none
          | some (v, r3) =>
            match skipWs r3 with
            | ',' :: r4 => (parseMembers fuel r4).map (fun p => ((k, v) :: p.1, p.2))
            | '\x7d' :: r4 => some ([(k, v)], r4)
            | _ => none
        | _ => none
    | _ => none

/-- Parse an array after its opening bracket. -/
def parseArrRest : Nat → Str → Option (Json × Str)
  | 0, _ => none
  | fuel + 1, s =>
    match skipWs s with
    | ']' :: rest => some (.arr [], rest)
    | _ => (parseElems fuel s).map (fun p => (.arr p.1, p.2))

/-- Parse a nonempty element list up to and including the closing bracket. -/
def parseElems : Nat → Str → Option (List Json × Str)
  | 0, _ => none
  | fuel + 1, s =>
    match parseValue fuel s with
    | none => none
    | some (v, r1) =>
      match skipWs r1 with
      | ',' :: r2 => (parseElems fuel r2).map (fun p => (v :: p.1, p.2))
      | ']' :: r2 => some ([v], r2)
      | _ => none

end

/-- Python `json.loads`: a single JSON value, with only whitespace around
it. -/
def jsonLoads (s : Str) : Option Json :=
  match parseValue (2 * s.length + 8) s with
  | some (v, rest) => if (skipWs rest).isEmpty then some v else none
  | none => none

/-! ### Remaining library functions used by the handlers -/

def b64Char (i : Nat) : Char :=
  ("ABCDEFGHIJKLMNOPQRSTUVWXYZabcdefghijklmnopqrstuvwxyz0123456789+/".data).getD i 'A'

/-- `base64.b64encode` on a byte sequence (each input < 256), as used on
the TTS response content. -/
def b64encode : List Nat → Str
  | [] => []
  | [a] => [b64Char (a / 4), b64Char (a % 4 * 16), '=', '=']
  | [a, b] => [b64Char (a / 4), b64Char (a % 4 * 16 + b / 16), b64Char (b % 16 * 4), '=']
  | a :: b :: c :: rest =>
    b64Char (a / 4) :: b64Char (a % 4 * 16 + b / 16) ::
      b64Char (b % 16 * 4 + c / 64) :: b64Char (c % 64) :: b64encode rest

/-! ### The request handlers of `app.py` -/

/-- `jsonify({"error": msg})`. -/
def errBody (msg : Str) : Json :=
  .obj [("error".data, .str msg)]

/-- `response.json()['candidates'][0]['content']['parts'][0]['text']`:
the value at that path when it is a string.  `none` models the
`KeyError`/`IndexError`/`TypeError` raised when the shape is absent. -/
def extractAiText (body : Json) : Option Str := do
  let cands ← match body with | .obj fs => objGet fs ("candidates".data) | _ => none
  let cand0 ← match cands with | .arr xs => xs[0]? | _ => none
  let content ← match cand0 with | .obj fs => objGet fs ("content".data) | _ => none
  let parts ← match content with | .obj fs => objGet fs ("parts".data) | _ => none
  let part0 ← match parts with | .arr xs => xs[0]? | _ => none
  let text ← match part0 with | .obj fs => objGet fs ("text".data) | _ => none
  match text with | .str s => some s | _ => none

/-- The span `ai_text[json_start:json_end]` for
`json_start = ai_text.find('{')`, `json_end = ai_text.rfind('}') + 1`,
when `json_start >= 0 and json_end > json_start`; `none` models the
`raise ValueError("No JSON found in response")` branch. -/
def extractedJson (ai_text : Str) : Option Str :=
  let json_start := pyFind ai_text '\x7b'
  let json_end := pyRfind ai_text '\x7d' + 1
  if 0 ≤ json_start ∧ json_start < json_end then
    some ((ai_text.take json_end.toNat).drop json_start.toNat)
  else none

/-- The inner `try` of `analyze_food`/`get_recipe`: extract the brace
span and `json.loads` it; `none` iff the `except (JSONDecodeError,
ValueError)` fallback fires. -/
def parseAiJson (ai_text : Str) : Option Json :=
  (extractedJson ai_text).bind jsonLoads

/-- `ai_text[:200] + "..." if len(ai_text) > 200 else ai_text`. -/
def truncateCommentary (ai_text : Str) : Str :=
  if ai_text.length > 200 then ai_text.take 200 ++ "...".data else ai_text

/-- The one generic suggestion of the `analyze_food` fallback payload. -/
def CREATIVE_SUGGESTION : Json :=
  .obj [("title".data, .str "Creative Dish".data),
        ("description".data, .str "Try something creative with your ingredients!".data)]

/-- The `analyze_food` fallback payload built when JSON parsing fails. -/
def analyzeFallback (ai_text : Str) : Json :=
  .obj [("commentary".data, .str (truncateCommentary ai_text)),
        ("suggestions".data, .arr [CREATIVE_SUGGESTION])]

/-- The `get_recipe` fallback recipe, echoing `data['suggestion']`. -/
def FALLBACK_RECIPE (suggestion : Json) : Json :=
  .obj [("title".data, suggestion),
        ("ingredients".data, .arr [.str "Ingredients will vary based on what you have available".data]),
        ("instructions".data,
          .arr [.str "Follow basic cooking principles".data,
                .str "Adjust seasoning to taste".data]),
        ("prepTime".data, .str "Varies".data),
        ("cookTime".data, .str "Varies".data),
        ("tips".data, .str "Use fresh ingredients when possible and taste as you go!".data)]

/-- `(data.get('persona') or 'attenborough').lower()` can raise
`AttributeError` when the persona value is truthy but not a string; its
string value is dead (the next line hardcodes the persona), so only that
possible exception is modelled. -/
def personaGuard (data : Body) : Option PyError :=
  match bodyGet data ("persona".data) with
  | some v =>
    if jsonTruthy v then
      match v with
      | .str _ => none
      | _ => some .attributeError
    else none
  | none => none

/-- The `/analyze_food` handler.  The prompt string flows only into the
vision request payload and is absorbed by `vision`. -/
def analyze_food (cfg : Config) (data : Body) (vision : VisionOutcome) : HandlerResult :=
  if cfg.GEMINI_API_KEY.isEmpty then
    ⟨.resp 500 (errBody "Server missing GEMINI_API_KEY configuration.".data), []⟩
  else if bodyFalsy data || !hasKey data ("image".data) then
    ⟨.resp 400 (errBody "No image data received".data), []⟩
  else
    match bodyGet data ("image".data) with
    | some (.str image_data_url) =>
      match splitOnceComma image_data_url with
      | none => ⟨.exn .valueError, []⟩
      | some _ =>
        match vision with
        | .requestError =>
          ⟨.resp 500 (errBody "Failed to analyze image".data), [.vision]⟩
        | .ok body =>
          match extractAiText body with
          | none => ⟨.resp 500 (errBody "Internal server error".data), [.vision]⟩
          | some ai_text =>
            match (parseAiJson ai_text).getD (analyzeFallback ai_text) with
            | .obj fs =>
              ⟨.resp 200 (.obj
                  [("commentary".data, (objGet fs ("commentary".data)).getD (.str [])),
                   ("suggestions".data, (objGet fs ("suggestions".data)).getD (.arr []))]),
               [.vision]⟩
            | _ => ⟨.resp 500 (errBody "Internal server error".data), [.vision]⟩
    | some _ => ⟨.exn .attributeError, []⟩
    | none => ⟨.exn .keyError, []⟩

/-- The `/get_recipe` handler. -/
def get_recipe (cfg : Config) (data : Body) (vision : VisionOutcome) : HandlerResult :=
  if cfg.GEMINI_API_KEY.isEmpty then
    ⟨.resp 500 (errBody "Server missing API configuration.".data), []⟩
  else if bodyFalsy data || !hasKey data ("suggestion".data) then
    ⟨.resp 400 (errBody "No recipe suggestion received".data), []⟩
  else
    match vision with
    | .requestError =>
      ⟨.resp 500 (errBody "Failed to generate recipe".data), [.vision]⟩
    | .ok body =>
      match extractAiText body with
      | none => ⟨.exn .keyError, [.vision]⟩
      | some ai_text =>
        ⟨.resp 200 ((parseAiJson ai_text).getD
            (FALLBACK_RECIPE ((bodyGet data ("suggestion".data)).getD .null))),
         [.vision]⟩

/-- The `/narrate` handler (POST).  `html.escape` and the SSML document
flow only into the TTS request payload and are absorbed by `tts`. -/
def narrate (cfg : Config) (data : Body) (vision : VisionOutcome)
    (tts : TtsOutcome) : HandlerResult :=
  if cfg.GEMINI_API_KEY.isEmpty || cfg.AZURE_SPEECH_KEY.isEmpty then
    ⟨.resp 500 (errBody "Server missing API configuration. Set GEMINI_API_KEY and AZURE_SPEECH_KEY.".data), []⟩
  else if bodyFalsy data || !hasKey data ("image".data) then
    ⟨.resp 400 (errBody "No image data received".data), []⟩
  else
    match personaGuard data with
    | some e => ⟨.exn e, []⟩
    | none =>
      match bodyGet data ("image".data) with
      | some (.str image_data_url) =>
        match splitOnceComma image_data_url with
        | none => ⟨.exn .valueError, []⟩
        | some _ =>
          match vision with
          | .requestError =>
            ⟨.resp 500 (errBody "Failed to get AI response".data), [.vision]⟩
          | .ok body =>
            match extractAiText body with
            | none => ⟨.exn .keyError, [.vision]⟩
            | some narration_text =>
              match tts with
              | .requestError =>
                ⟨.resp 500 (errBody "Failed to generate audio from Azure".data),
                 [.vision, .speech]⟩
              | .ok content =>
                ⟨.resp 200 (.obj
                    [("text".data, .str narration_text),
                     ("audio".data, .str (b64encode content))]),
                 [.vision, .speech]⟩
      | some _ => ⟨.exn .attributeError, []⟩
      | none => ⟨.exn .keyError, []⟩

/-! ### Shared concrete fixtures -/

/-- A configuration with both keys set. -/
def cfgW : Config := ⟨"k".data, "k".data⟩

/-- A well-formed request body carrying a data-URL image. -/
def dataW : Body := some [("image".data, .str "data:image/jpeg;base64,QUJD".data)]

/-- A Gemini response body whose first candidate's first part carries the
text `t`. -/
def bodyOfText (t : Str) : Json :=
  .obj [("candidates".data,
    .arr [.obj [("content".data,
      .obj [("parts".data,
        .arr [.obj [("text".data, .str t)]])])]])]

/-- `true` iff the outcome is a JSON response whose object body has the
key `k`. -/
def respHasKey (o : Outcome) (k : Str) : Bool :=
  match o with
  | .resp _ (.obj fields) => (objGet fields k).isSome
  | _ => false

/-! ### Claim theorems -/

/-- C1: when the vision-API call fails (transport error or non-success
status), `/narrate` never issues the speech call, and whenever the vision
call was actually made, the handler returns the 500 error response. -/
theorem narrate_no_speech_after_vision_failure (cfg : Config) (data : Body)
    (tts : TtsOutcome) :
    ApiCall.speech ∉ (narrate cfg data .requestError tts).calls ∧
    (ApiCall.vision ∈ (narrate cfg data .requestError tts).calls →
      (narrate cfg data .requestError tts).outcome =
        .resp 500 (errBody "Failed to get AI response".data)) := by
  unfold narrate
  repeat' split
  all_goals simp_all

theorem narrate_no_speech_after_vision_failure_witness :
    ApiCall.speech ∉ (narrate cfgW dataW .requestError .requestError).calls ∧
    (narrate cfgW dataW .requestError .requestError).outcome =
      .resp 500 (errBody "Failed to get AI response".data) :=
  ⟨(narrate_no_speech_after_vision_failure cfgW dataW .requestError).1,
   (narrate_no_speech_after_vision_failure cfgW dataW .requestError).2 (by decide)⟩

/-- C2: with both keys configured, a request whose body is null or lacks
`image` gets HTTP 400 with an `error` field from both `/narrate` and
`/analyze_food`, and no outbound call is made. -/
theorem missing_image_returns_400 (cfg : Config) (data : Body)
    (vision : VisionOutcome) (tts : TtsOutcome)
    (hg : cfg.GEMINI_API_KEY.isEmpty = false)
    (ha : cfg.AZURE_SPEECH_KEY.isEmpty = false)
    (hmiss : hasKey data ("image".data) = false) :
    narrate cfg data vision tts =
      ⟨.resp 400 (errBody "No image data received".data), []⟩ ∧
    analyze_food cfg data vision =
      ⟨.resp 400 (errBody "No image data received".data), []⟩ := by
  unfold narrate analyze_food
  simp [hg, ha, hmiss]

theorem missing_image_returns_400_witness :
    narrate cfgW none .requestError .requestError =
      ⟨.resp 400 (errBody "No image data received".data), []⟩ ∧
    analyze_food cfgW none .requestError =
      ⟨.resp 400 (errBody "No image data received".data), []⟩ :=
  missing_image_returns_400 cfgW none .requestError .requestError rfl rfl rfl

/-- C3: with the required API key unset (Gemini or Azure for `/narrate`;
Gemini for `/analyze_food` and `/get_recipe`), each endpoint returns
HTTP 500 with its configuration-specific error message and issues no
outbound call. -/
theorem missing_api_key_returns_500 (cfg : Config) (data : Body)
    (vision : VisionOutcome) (tts : TtsOutcome) :
    ((cfg.GEMINI_API_KEY.isEmpty || cfg.AZURE_SPEECH_KEY.isEmpty) = true →
      narrate cfg data vision tts =
        ⟨.resp 500 (errBody "Server missing API configuration. Set GEMINI_API_KEY and AZURE_SPEECH_KEY.".data), []⟩) ∧
    (cfg.GEMINI_API_KEY.isEmpty = true →
      analyze_food cfg data vision =
        ⟨.resp 500 (errBody "Server missing GEMINI_API_KEY configuration.".data), []⟩) ∧
    (cfg.GEMINI_API_KEY.isEmpty = true →
      get_recipe cfg data vision =
        ⟨.resp 500 (errBody "Server missing API configuration.".data), []⟩) := by
  refine ⟨fun h => ?_, fun h => ?_, fun h => ?_⟩ <;>
    · first
      | (unfold narrate; simp [h])
      | (unfold analyze_food; simp [h])
      | (unfold get_recipe; simp [h])

theorem missing_api_key_returns_500_witness :
    narrate ⟨[], []⟩ dataW .requestError .requestError =
      ⟨.resp 500 (errBody "Server missing API configuration. Set GEMINI_API_KEY and AZURE_SPEECH_KEY.".data), []⟩ ∧
    analyze_food ⟨[], []⟩ dataW .requestError =
      ⟨.resp 500 (errBody "Server missing GEMINI_API_KEY configuration.".data), []⟩ ∧
    get_recipe ⟨[], []⟩ dataW .requestError =
      ⟨.resp 500 (errBody "Server missing API configuration.".data), []⟩ :=
  ⟨(missing_api_key_returns_500 ⟨[], []⟩ dataW .requestError .requestError).1 rfl,
   (missing_api_key_returns_500 ⟨[], []⟩ dataW .requestError .requestError).2.1 rfl,
   (missing_api_key_returns_500 ⟨[], []⟩ dataW .requestError .requestError).2.2 rfl⟩

/-- C8: `/narrate` never returns a result with the narration text but no
audio: any response whose body carries a `text` field also carries an
`audio` field. -/
theorem narrate_text_implies_audio (cfg : Config) (data : Body)
    (vision : VisionOutcome) (tts : TtsOutcome)
    (h : respHasKey (narrate cfg data vision tts).outcome ("text".data) = true) :
    respHasKey (narrate cfg data vision tts).outcome ("audio".data) = true := by
  revert h
  unfold narrate
  repeat' split
  all_goals intro h
  all_goals first
    | rfl
    | simp [respHasKey, errBody, objGet] at h

theorem narrate_text_implies_audio_witness :
    respHasKey (narrate cfgW dataW (.ok (bodyOfText "A calm scene.".data))
        (.ok [77, 97, 110])).outcome ("text".data) = true ∧
    respHasKey (narrate cfgW dataW (.ok (bodyOfText "A calm scene.".data))
        (.ok [77, 97, 110])).outcome ("audio".data) = true :=
  ⟨rfl, narrate_text_implies_audio cfgW dataW _ _ rfl⟩

/-! ### The brace-span extraction on text with surrounding prose -/

theorem findChar_eq_none_of_not_mem {s : Str} {c : Char} (h : c ∉ s) :
    findChar s c = none := by
  induction s with
  | nil => rfl
  | cons a as ih =>
    have ha : ¬ a = c := fun e => h (e ▸ List.mem_cons_self a as)
    simp [findChar, ha, ih (fun hm => h (List.mem_cons_of_mem a hm))]

theorem findChar_append_of_not_mem {p : Str} {c : Char} (rest : Str) (h : c ∉ p) :
    findChar (p ++ rest) c = (findChar rest c).map (· + p.length) := by
  induction p with
  | nil => cases hfc : findChar rest c <;> simp [hfc]
  | cons a as ih =>
    have ha : ¬ a = c := fun e => h (e ▸ List.mem_cons_self a as)
    rw [List.cons_append]
    simp only [findChar, ha, if_false,
      ih (fun hm => h (List.mem_cons_of_mem a hm))]
    cases findChar rest c <;> simp [Nat.add_assoc]

theorem findChar_cons_self (c : Char) (rest : Str) :
    findChar (c :: rest) c = some 0 := by
  simp [findChar]

/-- The slice from the first `{` to the last `}` of a text made of a
brace-free preamble, a span starting with `{` and ending with `}`, and a
brace-free tail, is exactly that span. -/
theorem extractedJson_embedded (pre core post : Str)
    (hpre : '\x7b' ∉ pre) (hpost : '\x7d' ∉ post)
    (hhead : core.head? = some '\x7b') (hlast : core.getLast? = some '\x7d') :
    extractedJson (pre ++ core ++ post) = some core := by
  obtain ⟨mid, rfl⟩ : ∃ mid, core = '\x7b' :: mid := by
    cases core with
    | nil => simp at hhead
    | cons a as =>
      simp only [List.head?_cons, Option.some.injEq] at hhead
      exact ⟨as, by rw [hhead]⟩
  obtain ⟨u, hu⟩ : ∃ u, ('\x7b' :: mid).reverse = '\x7d' :: u := by
    have hrh : (('\x7b' :: mid).reverse).head? = some '\x7d' := by
      rw [List.head?_reverse]; exact hlast
    cases hcr : ('\x7b' :: mid).reverse with
    | nil => rw [hcr] at hrh; simp at hrh
    | cons b bs =>
      rw [hcr] at hrh
      simp only [List.head?_cons, Option.some.injEq] at hrh
      exact ⟨bs, by rw [hrh]⟩
  have hshape : pre ++ ('\x7b' :: mid) ++ post = pre ++ '\x7b' :: (mid ++ post) := by
    simp
  have hfind : findChar (pre ++ ('\x7b' :: mid) ++ post) '\x7b' = some pre.length := by
    rw [hshape, findChar_append_of_not_mem _ hpre, findChar_cons_self]
    simp
  have hrev : (pre ++ ('\x7b' :: mid) ++ post).reverse
      = post.reverse ++ ('\x7d' :: (u ++ pre.reverse)) := by
    rw [List.reverse_append, List.reverse_append, hu]
    simp
  have hrfind : findChar (pre ++ ('\x7b' :: mid) ++ post).reverse '\x7d'
      = some post.length := by
    have hpost' : '\x7d' ∉ post.reverse := by simpa using hpost
    rw [hrev, findChar_append_of_not_mem _ hpost', findChar_cons_self]
    simp
  have hlen : (pre ++ ('\x7b' :: mid) ++ post).length
      = pre.length + (mid.length + 1) + post.length := by
    simp only [List.length_append, List.length_cons]
  have hslice : ((pre ++ ('\x7b' :: mid) ++ post).take
        (pre.length + (mid.length + 1))).drop pre.length = '\x7b' :: mid := by
    have h1 : pre.length + (mid.length + 1) = (pre ++ '\x7b' :: mid).length := by
      simp
    rw [h1, List.take_left, List.drop_left]
  simp only [extractedJson, pyFind, pyRfind, hfind, hrfind, hlen]
  rw [if_pos (by constructor <;> omega)]
  have htn1 : ((pre.length : Int)).toNat = pre.length := by omega
  have htn2 : (((pre.length + (mid.length + 1) + post.length : Nat) : Int)
      - 1 - (post.length : Int) + 1).toNat = pre.length + (mid.length + 1) := by
    omega
  rw [htn1, htn2, hslice]

/-- A successful `data[k]` lookup means the body is truthy and has `k`. -/
theorem guard_false_of_get_some {data : Body} {k : Str} {v : Json}
    (h : bodyGet data k = some v) :
    (bodyFalsy data || !hasKey data k) = false := by
  cases data with
  | none => simp [bodyGet] at h
  | some fields =>
    cases fields with
    | nil => simp [bodyGet, objGet] at h
    | cons a rest => simp [bodyFalsy, hasKey, h]

/-- C5: when the AI reply is a well-formed JSON object embedded in prose
(a brace-free preamble, the object, a brace-free tail), `/analyze_food`
extracts the span from the first `{` to the last `}`, parses it, and
returns exactly the embedded object's `commentary` and `suggestions`. -/
theorem analyze_food_extracts_embedded_json (cfg : Config) (data : Body)
    (img : Str) (pr : Str × Str) (vbody : Json) (pre core post : Str)
    (fields : List (Str × Json))
    (hg : cfg.GEMINI_API_KEY.isEmpty = false)
    (himg : bodyGet data ("image".data) = some (.str img))
    (hsplit : splitOnceComma img = some pr)
    (htext : extractAiText vbody = some (pre ++ core ++ post))
    (hpre : '\x7b' ∉ pre) (hpost : '\x7d' ∉ post)
    (hhead : core.head? = some '\x7b') (hlast : core.getLast? = some '\x7d')
    (hparse : jsonLoads core = some (.obj fields)) :
    analyze_food cfg data (.ok vbody) =
      ⟨.resp 200 (.obj
          [("commentary".data, (objGet fields ("commentary".data)).getD (.str [])),
           ("suggestions".data, (objGet fields ("suggestions".data)).getD (.arr []))]),
       [.vision]⟩ := by
  have hguard := guard_false_of_get_some himg
  have hpj : parseAiJson (pre ++ core ++ post) = some (.obj fields) := by
    unfold parseAiJson
    rw [extractedJson_embedded pre core post hpre hpost hhead hlast]
    simpa using hparse
  unfold analyze_food
  simp only [hg, hguard, himg, hsplit, htext, hpj, Bool.false_eq_true, if_false,
    Option.getD_some]

/-- The embedded JSON object of the worked spec example. -/
def coreW : Str :=
  "\x7b\"commentary\":\"Fresh veggies!\",\"suggestions\":[\x7b\"title\":\"Salad\",\"description\":\"Toss greens.\"\x7d]\x7d".data

/-- Its parsed field list. -/
def fieldsW : List (Str × Json) :=
  [("commentary".data, .str "Fresh veggies!".data),
   ("suggestions".data,
     .arr [.obj [("title".data, .str "Salad".data),
                 ("description".data, .str "Toss greens.".data)]])]

/-- The worked spec example reply: the object wrapped in prose. -/
def aiTextW : Str := ("Here you go: ".data) ++ coreW ++ (" Enjoy!".data)

theorem analyze_food_extracts_embedded_json_witness :
    analyze_food cfgW dataW (.ok (bodyOfText aiTextW)) =
      ⟨.resp 200 (.obj
          [("commentary".data, .str "Fresh veggies!".data),
           ("suggestions".data,
             .arr [.obj [("title".data, .str "Salad".data),
                         ("description".data, .str "Toss greens.".data)]])]),
       [.vision]⟩ :=
  (analyze_food_extracts_embedded_json cfgW dataW
      ("data:image/jpeg;base64,QUJD".data)
      ("data:image/jpeg;base64".data, "QUJD".data)
      (bodyOfText aiTextW) ("Here you go: ".data) coreW (" Enjoy!".data)
      fieldsW rfl rfl rfl rfl (by decide) (by decide) rfl rfl rfl).trans rfl

/-- C6 (amended): on a reply from which no JSON object can be parsed,
`/analyze_food` returns the deterministic fallback: the commentary is the
reply itself when it has at most 200 characters and otherwise its first
200 characters with `"..."` appended (203 characters, not at most 200),
plus exactly the one generic suggestion. -/
theorem analyze_food_parse_failure_fallback (cfg : Config) (data : Body)
    (img : Str) (pr : Str × Str) (vbody : Json) (ai_text : Str)
    (hg : cfg.GEMINI_API_KEY.isEmpty = false)
    (himg : bodyGet data ("image".data) = some (.str img))
    (hsplit : splitOnceComma img = some pr)
    (htext : extractAiText vbody = some ai_text)
    (hfail : parseAiJson ai_text = none) :
    analyze_food cfg data (.ok vbody) =
      ⟨.resp 200 (.obj
          [("commentary".data, .str (truncateCommentary ai_text)),
           ("suggestions".data, .arr [CREATIVE_SUGGESTION])]),
       [.vision]⟩ ∧
    (ai_text.length ≤ 200 → truncateCommentary ai_text = ai_text) ∧
    (200 < ai_text.length → (truncateCommentary ai_text).length = 203) := by
  refine ⟨?_, fun h => ?_, fun h => ?_⟩
  · have hguard := guard_false_of_get_some himg
    unfold analyze_food
    simp only [hg, hguard, himg, hsplit, htext, hfail, Bool.false_eq_true,
      if_false, Option.getD_none]
    rfl
  · simp [truncateCommentary, Nat.not_lt.mpr h]
  · simp [truncateCommentary, h, List.length_take]
    omega

theorem analyze_food_parse_failure_fallback_witness :
    analyze_food cfgW dataW (.ok (bodyOfText "nothing structured".data)) =
      ⟨.resp 200 (.obj
          [("commentary".data, .str "nothing structured".data),
           ("suggestions".data, .arr [CREATIVE_SUGGESTION])]),
       [.vision]⟩ :=
  ((analyze_food_parse_failure_fallback cfgW dataW
      ("data:image/jpeg;base64,QUJD".data)
      ("data:image/jpeg;base64".data, "QUJD".data)
      (bodyOfText "nothing structured".data) ("nothing structured".data)
      rfl rfl rfl rfl rfl).1).trans rfl

/-- The 201-character brace-free reply refuting C6 as stated. -/
def longReplyW : Str := List.replicate 201 'a'

/-- C6 counterexample: for a 201-character brace-free reply, the fallback
commentary is the first 200 characters followed by `"..."`, a string of
203 characters — more than the 200 the claim allows. -/
theorem analyze_food_fallback_commentary_203_cex :
    (analyze_food cfgW dataW (.ok (bodyOfText longReplyW))).outcome =
      .resp 200 (.obj
          [("commentary".data, .str (List.replicate 200 'a' ++ "...".data)),
           ("suggestions".data, .arr [CREATIVE_SUGGESTION])]) ∧
    (List.replicate 200 'a' ++ "...".data).length = 203 ∧ 200 < 203 :=
  ⟨rfl, by simp, by omega⟩

/-- `value['k']` on a parsed JSON value that is an object. -/
def jGet (j : Json) (k : Str) : Option Json :=
  match j with
  | .obj fields => objGet fields k
  | _ => none

/-- C7: when the AI reply of `/get_recipe` is unparsable, the fallback
recipe is returned verbatim: its `title` is exactly the requested
suggestion title, and its placeholder `ingredients` and `instructions`
are non-empty. -/
theorem get_recipe_fallback_echoes_title (cfg : Config) (data : Body)
    (title : Str) (vbody : Json) (ai_text : Str)
    (hg : cfg.GEMINI_API_KEY.isEmpty = false)
    (hsugg : bodyGet data ("suggestion".data) = some (.str title))
    (htext : extractAiText vbody = some ai_text)
    (hfail : parseAiJson ai_text = none) :
    get_recipe cfg data (.ok vbody) =
      ⟨.resp 200 (FALLBACK_RECIPE (.str title)), [.vision]⟩ ∧
    jGet (FALLBACK_RECIPE (.str title)) ("title".data) = some (.str title) ∧
    (∃ ing : List Json,
      jGet (FALLBACK_RECIPE (.str title)) ("ingredients".data) = some (.arr ing) ∧
      ing ≠ []) ∧
    (∃ ins : List Json,
      jGet (FALLBACK_RECIPE (.str title)) ("instructions".data) = some (.arr ins) ∧
      ins ≠ []) := by
  refine ⟨?_, rfl, ⟨_, rfl, by simp⟩, ⟨_, rfl, by simp⟩⟩
  have hguard := guard_false_of_get_some hsugg
  unfold get_recipe
  simp only [hg, hguard, hsugg, htext, hfail, Bool.false_eq_true, if_false,
    Option.getD_none, Option.getD_some]

theorem get_recipe_fallback_echoes_title_witness :
    get_recipe cfgW (some [("suggestion".data, .str "Tomato Soup".data)])
        (.ok (bodyOfText "no json here".data)) =
      ⟨.resp 200 (FALLBACK_RECIPE (.str "Tomato Soup".data)), [.vision]⟩ :=
  (get_recipe_fallback_echoes_title cfgW
      (some [("suggestion".data, .str "Tomato Soup".data)])
      ("Tomato Soup".data) (bodyOfText "no json here".data)
      ("no json here".data) rfl rfl rfl rfl).1

/-- C10: on a success-status vision reply whose JSON body lacks the
`candidates/content/parts/text` shape, `/get_recipe` lets the
`KeyError`/`IndexError` escape uncaught (its `try` has no generic
`except` branch, so no JSON error envelope is produced), while
`/analyze_food` catches the same condition with `except Exception` and
returns HTTP 500 with an `error` field. -/
theorem get_recipe_shape_error_uncaught (cfg : Config) (dataA dataR : Body)
    (img : Str) (pr : Str × Str) (sv vbody : Json)
    (hg : cfg.GEMINI_API_KEY.isEmpty = false)
    (himg : bodyGet dataA ("image".data) = some (.str img))
    (hsplit : splitOnceComma img = some pr)
    (hsugg : bodyGet dataR ("suggestion".data) = some sv)
    (hshape : extractAiText vbody = none) :
    get_recipe cfg dataR (.ok vbody) = ⟨.exn .keyError, [.vision]⟩ ∧
    analyze_food cfg dataA (.ok vbody) =
      ⟨.resp 500 (errBody "Internal server error".data), [.vision]⟩ := by
  constructor
  · have hguard := guard_false_of_get_some hsugg
    unfold get_recipe
    simp only [hg, hguard, hshape, Bool.false_eq_true, if_false]
  · have hguard := guard_false_of_get_some himg
    unfold analyze_food
    simp only [hg, hguard, himg, hsplit, hshape, Bool.false_eq_true, if_false]

theorem get_recipe_shape_error_uncaught_witness :
    get_recipe cfgW (some [("suggestion".data, .str "Tomato Soup".data)])
        (.ok (.obj [])) = ⟨.exn .keyError, [.vision]⟩ ∧
    analyze_food cfgW dataW (.ok (.obj [])) =
      ⟨.resp 500 (errBody "Internal server error".data), [.vision]⟩ :=
  get_recipe_shape_error_uncaught cfgW dataW
    (some [("suggestion".data, .str "Tomato Soup".data)])
    ("data:image/jpeg;base64,QUJD".data)
    ("data:image/jpeg;base64".data, "QUJD".data)
    (.str "Tomato Soup".data) (.obj []) rfl rfl rfl rfl rfl

/-- `true` iff the outcome is an HTTP 400 response. -/
def is400 (o : Outcome) : Bool :=
  match o with
  | .resp 400 _ => true
  | _ => false

/-- A request body whose image value has no comma separator. -/
def dataNoCommaW : Body := some [("image".data, .str "nocomma".data)]

/-- C4 counterexample: with keys configured, an `image` value without a
comma makes both `/narrate` and `/analyze_food` end in an uncaught
`ValueError` from the tuple unpacking of `split(',', 1)` — not in an
HTTP 400 response. -/
theorem no_comma_image_not_400_cex :
    (narrate cfgW dataNoCommaW .requestError .requestError).outcome =
      .exn .valueError ∧
    is400 (narrate cfgW dataNoCommaW .requestError .requestError).outcome = false ∧
    (analyze_food cfgW dataNoCommaW .requestError).outcome = .exn .valueError ∧
    is400 (analyze_food cfgW dataNoCommaW .requestError).outcome = false :=
  ⟨rfl, rfl, rfl, rfl⟩

/-- C4 (amended): a string `image` value without a comma separator makes
the `header, encoded_data` unpacking raise `ValueError`; the exception is
uncaught in both `/narrate` and `/analyze_food` (the split runs outside
every `try`), so the handlers produce no 400 response and issue no
outbound call. -/
theorem no_comma_image_raises_valueError (cfg : Config) (data : Body)
    (img : Str) (vision : VisionOutcome) (tts : TtsOutcome)
    (hg : cfg.GEMINI_API_KEY.isEmpty = false)
    (ha : cfg.AZURE_SPEECH_KEY.isEmpty = false)
    (himg : bodyGet data ("image".data) = some (.str img))
    (hnc : findChar img ',' = none)
    (hpg : personaGuard data = none) :
    narrate cfg data vision tts = ⟨.exn .valueError, []⟩ ∧
    analyze_food cfg data vision = ⟨.exn .valueError, []⟩ := by
  have hguard := guard_false_of_get_some himg
  have hsplit : splitOnceComma img = none := by
    unfold splitOnceComma
    rw [hnc]
  constructor
  · unfold narrate
    simp only [hg, ha, hguard, hpg, himg, hsplit, Bool.false_eq_true,
      Bool.or_self, if_false]
  · unfold analyze_food
    simp only [hg, hguard, himg, hsplit, Bool.false_eq_true, if_false]

theorem no_comma_image_raises_valueError_witness :
    narrate cfgW dataNoCommaW .requestError .requestError =
      ⟨.exn .valueError, []⟩ ∧
    analyze_food cfgW dataNoCommaW .requestError = ⟨.exn .valueError, []⟩ :=
  no_comma_image_raises_valueError cfgW dataNoCommaW ("nocomma".data)
    .requestError .requestError rfl rfl rfl rfl rfl

/-- A narrate request selecting a non-default (exclamatory-host style)
persona. -/
def dataPersonaW : Body :=
  some [("image".data, .str "data:image/jpeg;base64,QUJD".data),
        ("persona".data, .str "steve-irwin".data)]

/-- The narration of the spec's worked persona example. -/
def narrationW : Str := "A group gathers near the shore.".data

/-- C9 counterexample: under a non-default persona, with the vision model
replying `"A group gathers near the shore."`, `/narrate` returns that
text verbatim — it contains no `!`, so no exclamatory catchphrase was
prepended to any sentence, against the claimed output
`"Catchphrase! A group gathers near the shore."`. -/
theorem narrate_persona_no_catchphrase_cex :
    (narrate cfgW dataPersonaW (.ok (bodyOfText narrationW))
        (.ok [77, 97, 110])).outcome =
      .resp 200 (.obj [("text".data, .str narrationW),
                       ("audio".data, .str "TWFu".data)]) ∧
    '!' ∉ narrationW :=
  ⟨rfl, by decide⟩

/-- C9 (amended): `/narrate` ignores the request's persona value — the
handler hardcodes the narrator persona and applies no catchphrase
post-processing — so for every persona string the returned narration
text is the vision reply verbatim. -/
theorem narrate_ignores_persona (cfg : Config) (data : Body)
    (img pv narration : Str) (pr : Str × Str) (vbody : Json)
    (content : List Nat)
    (hg : cfg.GEMINI_API_KEY.isEmpty = false)
    (ha : cfg.AZURE_SPEECH_KEY.isEmpty = false)
    (himg : bodyGet data ("image".data) = some (.str img))
    (hsplit : splitOnceComma img = some pr)
    (hpersona : bodyGet data ("persona".data) = some (.str pv))
    (htext : extractAiText vbody = some narration) :
    narrate cfg data (.ok vbody) (.ok content) =
      ⟨.resp 200 (.obj [("text".data, .str narration),
                        ("audio".data, .str (b64encode content))]),
       [.vision, .speech]⟩ := by
  have hguard := guard_false_of_get_some himg
  have hpg : personaGuard data = none := by
    simp [personaGuard, hpersona]
  unfold narrate
  simp only [hg, ha, hguard, hpg, himg, hsplit, htext, Bool.false_eq_true,
    Bool.or_self, if_false]

theorem narrate_ignores_persona_witness :
    narrate cfgW dataPersonaW (.ok (bodyOfText narrationW)) (.ok [77, 97, 110]) =
      ⟨.resp 200 (.obj [("text".data, .str narrationW),
                        ("audio".data, .str (b64encode [77, 97, 110]))]),
       [.vision, .speech]⟩ :=
  narrate_ignores_persona cfgW dataPersonaW
    ("data:image/jpeg;base64,QUJD".data) ("steve-irwin".data) narrationW
    ("data:image/jpeg;base64".data, "QUJD".data) (bodyOfText narrationW)
    [77, 97, 110] rfl rfl rfl rfl rfl rfl
